import Mathlib

/-!
Shallow embedding of the `@result/result` TypeScript package
(`src/packages/result/result.ts`, `src/packages/result/controlFlow.ts`) and of
the response-mapping step of the `@result/cf-turnstile` wrapper
(`src/packages/cf-turnstile/mod.ts`).

Modelling conventions:
* The TS tagged union `ResultInner<T, E> = Ok<T> | Err<E>` (an object with a
  boolean discriminant `success` and a payload `value`) becomes a two-constructor
  inductive; the discriminant is recovered by `ResultInner.success`.
* The class `Result<T, E>` holds the single public field `innerResult`, so it
  becomes a one-field structure.
* A TS method that can `throw` is embedded as a function into `Except F A`,
  where `F` is the type of thrown faults: `Except.error` is a throw, never a
  normal return.
* The TS casts `this as unknown as Result<U, E>` (and the like) appear only in
  branches where the receiver's variant is known; the embedding writes the
  receiver's known value at the cast type (e.g. an `Err` receiver cast to
  `Result<U, E>` is `Result.err e`), which is what the identity cast denotes
  at runtime there.
-/

/-- `Ok<T> | Err<E>` — the inner tagged union (`ResultInner<T, E>`). -/
inductive ResultInner (T E : Type) : Type where
  | ok (value : T)
  | err (value : E)
deriving Repr, DecidableEq

/-- The `success` discriminant field of `ResultInner`: `true` for `Ok`. -/
def ResultInner.success {T E : Type} : ResultInner T E → Bool
  | .ok _ => true
  | .err _ => false

/-- The class `Result<T, E>`: a wrapper holding `public innerResult`. -/
structure Result (T E : Type) : Type where
  innerResult : ResultInner T E
deriving Repr, DecidableEq

/-- The error class thrown by `unwrap`: `class Panic extends Error`,
constructed from a message and a `cause` (the wrapped `Err` payload). -/
structure Panic (E : Type) : Type where
  message : String
  cause : E
deriving Repr, DecidableEq

/-- Static factory `Result.ok(value)`: constructs the success variant. -/
def Result.ok {T E : Type} (value : T) : Result T E :=
  ⟨.ok value⟩

/-- Static factory `Result.err(value)`: constructs the failure variant. -/
def Result.err {T E : Type} (value : E) : Result T E :=
  ⟨.err value⟩

/-- `match<A>(ok, err)`: dispatches on `innerResult.success` and applies the
matching handler to the payload. (Named `match'` because `match` is a Lean
keyword.) -/
def Result.match' {T E A : Type} (r : Result T E) (ok : T → A) (err : E → A) : A :=
  match r.innerResult with
  | .ok value => ok value
  | .err value => err value

/-- `isOk()`: `return this.innerResult.success`. -/
def Result.isOk {T E : Type} (r : Result T E) : Bool :=
  r.innerResult.success

/-- `isOkAnd(f)`: defined via `match`. -/
def Result.isOkAnd {T E : Type} (r : Result T E) (f : T → Bool) : Bool :=
  r.match' (fun value => f value) (fun _ => false)

/-- `isErr()`: `return !this.innerResult.success`. -/
def Result.isErr {T E : Type} (r : Result T E) : Bool :=
  !r.innerResult.success

/-- `isErrAnd(f)`: defined via `match`. -/
def Result.isErrAnd {T E : Type} (r : Result T E) (f : E → Bool) : Bool :=
  r.match' (fun _ => false) (fun err => f err)

/-- The return type of the instance methods `ok(noneSymbol?)` and
`err(noneSymbol?)`: the TS union `T | null | typeof Result.none`. The static
unique symbol `Result.none` (created once at module load and compared by
identity) is the constructor `noneSymbol`; `null` is `nullv`; a legitimate
payload `a` is injected as `val a`. Constructor disjointness models identity
distinguishability of the symbol. -/
inductive Projection (A : Type) : Type where
  | val (a : A)
  | nullv
  | noneSymbol
deriving Repr, DecidableEq

/-- Instance method `ok(noneSymbol?: boolean)`: the success payload when
success; otherwise `Result.none` when `noneSymbol` is `true`, else `null`.
(Named `okProj` because the static factory already uses the name `ok`.) -/
def Result.okProj {T E : Type} (r : Result T E) (noneSymbol : Bool) : Projection T :=
  match r.innerResult with
  | .ok value => .val value
  | .err _ => if noneSymbol then .noneSymbol else .nullv

/-- Instance method `err(noneSymbol?: boolean)`: symmetric to `okProj`. -/
def Result.errProj {T E : Type} (r : Result T E) (noneSymbol : Bool) : Projection E :=
  match r.innerResult with
  | .err value => .val value
  | .ok _ => if noneSymbol then .noneSymbol else .nullv

/-- `map(op)`: via `match`; the err handler returns `this` cast to
`Result<U, E>` — the receiver there is the `Err` carrying `e`. -/
def Result.map {T E U : Type} (r : Result T E) (op : T → U) : Result U E :=
  r.match' (fun value => Result.ok (op value)) (fun e => Result.err e)

/-- `mapOr(defaultValue, f)`: via `match`. -/
def Result.mapOr {T E U : Type} (r : Result T E) (defaultValue : U) (f : T → U) : U :=
  r.match' (fun value => f value) (fun _ => defaultValue)

/-- `mapOrElse(defaultValue, f)`: via `match`. -/
def Result.mapOrElse {T E U : Type} (r : Result T E) (defaultValue : E → U) (f : T → U) : U :=
  r.match' (fun value => f value) (fun error => defaultValue error)

/-- `mapErr(op)`: via `match`; the ok handler returns `this` cast to
`Result<T, F>` — the receiver there is the `Ok` carrying `v`. -/
def Result.mapErr {T E F : Type} (r : Result T E) (op : E → F) : Result T F :=
  r.match' (fun v => Result.ok v) (fun error => Result.err (op error))

/-- `inspect(f)`: calls the void hook on the success payload, returns `this`. -/
def Result.inspect {T E : Type} (r : Result T E) (f : T → Unit) : Result T E :=
  match r.innerResult with
  | .ok value => let _ := f value; r
  | .err _ => r

/-- `inspectErr(f)`: calls the void hook on the error payload, returns `this`. -/
def Result.inspectErr {T E : Type} (r : Result T E) (f : E → Unit) : Result T E :=
  match r.innerResult with
  | .ok _ => r
  | .err value => let _ := f value; r

/-- `and(res)`: via `match`; the err handler returns `this` cast. -/
def Result.and {T E U : Type} (r : Result T E) (res : Result U E) : Result U E :=
  r.match' (fun _ => res) (fun e => Result.err e)

/-- `andThen(op)`: via `match`; the err handler returns `this` cast. -/
def Result.andThen {T E U : Type} (r : Result T E) (op : T → Result U E) : Result U E :=
  r.match' (fun value => op value) (fun e => Result.err e)

/-- `or(res)`: via `match`; the ok handler returns `this` cast. -/
def Result.or {T E F : Type} (r : Result T E) (res : Result T F) : Result T F :=
  r.match' (fun v => Result.ok v) (fun _ => res)

/-- `orElse(op)`: via `match`; the ok handler returns `this` cast. -/
def Result.orElse {T E F : Type} (r : Result T E) (op : E → Result T F) : Result T F :=
  r.match' (fun v => Result.ok v) (fun error => op error)

/-- `unwrap()`: returns the `Ok` payload, or throws
`new Panic("called `Result.unwrap()` on an `Err`", error)`. -/
def Result.unwrap {T E : Type} (r : Result T E) : Except (Panic E) T :=
  r.match' (fun value => .ok value)
    (fun error => .error ⟨"called `Result.unwrap()` on an `Err`", error⟩)

/-- `unwrapOr(defaultValue)`: via `match`. -/
def Result.unwrapOr {T E : Type} (r : Result T E) (defaultValue : T) : T :=
  r.match' (fun value => value) (fun _ => defaultValue)

/-- `unwrapOrElse(defaultValue)`: via `match`. -/
def Result.unwrapOrElse {T E : Type} (r : Result T E) (defaultValue : Unit → T) : T :=
  r.match' (fun value => value) (fun _ => defaultValue ())

/-- `orThrow()`: returns the `Ok` payload, or throws the error payload itself
(no wrapper): the fault type is `E`, the payload type, not `Panic E`. -/
def Result.orThrow {T E : Type} (r : Result T E) : Except E T :=
  r.match' (fun value => .ok value) (fun error => .error error)

/-- `ControlFlow<Break, Continue>` (`src/packages/result/controlFlow.ts`):
the union `{isBreak: true, value: Break} | {isBreak: false, value: Continue}`. -/
inductive ControlFlow (B C : Type) : Type where
  | breakValue (value : B)
  | continueValue (value : C)
deriving Repr, DecidableEq

/-- The `isBreak` discriminant of `ControlFlow`. -/
def ControlFlow.isBreak {B C : Type} : ControlFlow B C → Bool
  | .breakValue _ => true
  | .continueValue _ => false

/-- `branch()`: via `match`; ok → `{isBreak: false, value}`, err →
`{isBreak: true, value: this as Result<never, E>}` (the receiver there is the
`Err` carrying `e`; `never` is `Empty`). Total — it returns a `ControlFlow`
value for every receiver and performs no throw or other control transfer. -/
def Result.branch {T E : Type} (r : Result T E) : ControlFlow (Result Empty E) T :=
  r.match' (fun value => .continueValue value)
    (fun e => .breakValue (Result.err e))

/-!
Model of the runtime payload domain seen by `awaited()`. The method
discriminates solely with `value instanceof Promise`:
* `promise o` — an instance of the host `Promise` class whose settlement is
  `o` (`Except.ok a` = fulfills with `a`, `Except.error reason` = rejects);
* `thenable o` — a then-able object that is NOT a `Promise` instance and would
  settle to `o` if awaited (`awaited` never consults `o`);
* `plain a` — any other (non-pending) value `a`.
`R` is the type of rejection reasons.
-/
inductive Payload (R A : Type) : Type where
  | promise (outcome : Except R A)
  | thenable (outcome : Except R A)
  | plain (a : A)
deriving Repr

/-- `async awaited()`: on each variant, if the payload is a `Promise` instance
it is awaited (a rejection makes `awaited`'s own promise reject: `Except.error`
here), and the result re-wrapped in the same variant; otherwise the payload is
returned unchanged (`value as Awaited<T>` is an identity cast). `Except.ok` is
the asynchronous normal completion of `awaited`'s returned promise. -/
def Result.awaited {R T E : Type} (r : Result (Payload R T) (Payload R E)) :
    Except R (Result (Payload R T) (Payload R E)) :=
  match r.innerResult with
  | .ok value =>
    match value with
    | .promise (.ok a) => .ok (Result.ok (.plain a))
    | .promise (.error reason) => .error reason
    | .thenable o => .ok (Result.ok (.thenable o))
    | .plain a => .ok (Result.ok (.plain a))
  | .err value =>
    match value with
    | .promise (.ok e) => .ok (Result.err (.plain e))
    | .promise (.error reason) => .error reason
    | .thenable o => .ok (Result.err (.thenable o))
    | .plain e => .ok (Result.err (.plain e))

/-!
Embedding of the `@result/cf-turnstile` wrapper (`src/packages/cf-turnstile`).
The network fetch inside `validate` is host I/O at the embedding boundary;
what is embedded is the response schema and the mapping of the parsed body
onto `Result`, which is the part after `await this.req(request)`.
-/

/-- The `TurnstileAPIErrorCode` union of string literals. -/
inductive TurnstileAPIErrorCode : Type where
  | missingInputSecret
  | invalidInputSecret
  | missingInputResponse
  | invalidInputResponse
  | badRequest
  | timeoutOrDuplicate
  | internalError
deriving Repr, DecidableEq

/-- The string literal each `TurnstileAPIErrorCode` member denotes. -/
def TurnstileAPIErrorCode.toString : TurnstileAPIErrorCode → String
  | .missingInputSecret => "missing-input-secret"
  | .invalidInputSecret => "invalid-input-secret"
  | .missingInputResponse => "missing-input-response"
  | .invalidInputResponse => "invalid-input-response"
  | .badRequest => "bad-request"
  | .timeoutOrDuplicate => "timeout-or-duplicate"
  | .internalError => "internal-error"

/-- `TurnstileAPISuccessResponse` (`success: true`); the field
`"error-codes"` is spelled `errorCodes`. -/
structure TurnstileAPISuccessResponse : Type where
  challenge_ts : String
  hostname : String
  errorCodes : List TurnstileAPIErrorCode
  action : String
  cdata : String
deriving Repr, DecidableEq

/-- `TurnstileAPIErrorResponse` (`success: false`). -/
structure TurnstileAPIErrorResponse : Type where
  errorCodes : List TurnstileAPIErrorCode
deriving Repr, DecidableEq

/-- `TunstileAPIResponse` (sic): the union of the two shapes, discriminated by
the literal `success` field. -/
inductive TunstileAPIResponse : Type where
  | success (r : TurnstileAPISuccessResponse)
  | failure (r : TurnstileAPIErrorResponse)
deriving Repr, DecidableEq

/-- The `success` discriminant field of a response body. -/
def TunstileAPIResponse.successFlag : TunstileAPIResponse → Bool
  | .success _ => true
  | .failure _ => false

/-- The `"error-codes"` field, present on both response shapes. -/
def TunstileAPIResponse.errorCodes : TunstileAPIResponse → List TurnstileAPIErrorCode
  | .success s => s.errorCodes
  | .failure f => f.errorCodes

/-- `class TurnstileError extends Error`, keeping `public codes` and the
`Error` message built by the constructor. -/
structure TurnstileError : Type where
  codes : List TurnstileAPIErrorCode
  message : String
deriving Repr, DecidableEq

/-- The `TurnstileError` constructor: stores `codes` and calls
`super("Cloudflare Turnstile returned error codes: '" + codes.join("', '") + "'")`. -/
def TurnstileError.ofCodes (codes : List TurnstileAPIErrorCode) : TurnstileError :=
  ⟨codes,
    "Cloudflare Turnstile returned error codes: \x27"
      ++ String.intercalate "\x27, \x27" (codes.map TurnstileAPIErrorCode.toString)
      ++ "\x27"⟩

/-- The response-mapping step of `CfTurnstile.validate` (the code after
`const response = await this.req(request)`): `success: true` bodies map to
`Result.ok(response)`, others to `Result.err(new TurnstileError(response["error-codes"]))`. -/
def CfTurnstile.validateBody (response : TunstileAPIResponse) :
    Result TunstileAPIResponse TurnstileError :=
  if response.successFlag then
    Result.ok response
  else
    Result.err (TurnstileError.ofCodes response.errorCodes)

/-!
State-passing forms of every `Result` method, for the immutability claim.
The field `innerResult` is declared `public` and non-`readonly` in the source,
so a method body could in principle reassign it; the state-passing embedding
of a method returns its value together with the receiver as it stands when the
method returns. Each body below is the statement-by-statement translation of
the corresponding method: since no statement of any method assigns to
`this.innerResult`, the receiver threaded out is the receiver passed in.
Methods whose source body is `return this.match(...)` are translated through
`Result.matchSt` with the same handlers.
-/

/-- State-passing `match`. -/
def Result.matchSt {T E A : Type} (r : Result T E) (ok : T → A) (err : E → A) :
    A × Result T E :=
  match r.innerResult with
  | .ok value => (ok value, r)
  | .err value => (err value, r)

/-- State-passing `isOk`. -/
def Result.isOkSt {T E : Type} (r : Result T E) : Bool × Result T E :=
  (r.innerResult.success, r)

/-- State-passing `isOkAnd`. -/
def Result.isOkAndSt {T E : Type} (r : Result T E) (f : T → Bool) : Bool × Result T E :=
  r.matchSt (fun value => f value) (fun _ => false)

/-- State-passing `isErr`. -/
def Result.isErrSt {T E : Type} (r : Result T E) : Bool × Result T E :=
  (!r.innerResult.success, r)

/-- State-passing `isErrAnd`. -/
def Result.isErrAndSt {T E : Type} (r : Result T E) (f : E → Bool) : Bool × Result T E :=
  r.matchSt (fun _ => false) (fun err => f err)

/-- State-passing instance method `ok(noneSymbol?)`. -/
def Result.okProjSt {T E : Type} (r : Result T E) (noneSymbol : Bool) :
    Projection T × Result T E :=
  match r.innerResult with
  | .ok value => (.val value, r)
  | .err _ => (if noneSymbol then .noneSymbol else .nullv, r)

/-- State-passing instance method `err(noneSymbol?)`. -/
def Result.errProjSt {T E : Type} (r : Result T E) (noneSymbol : Bool) :
    Projection E × Result T E :=
  match r.innerResult with
  | .err value => (.val value, r)
  | .ok _ => (if noneSymbol then .noneSymbol else .nullv, r)

/-- State-passing `map`. -/
def Result.mapSt {T E U : Type} (r : Result T E) (op : T → U) :
    Result U E × Result T E :=
  r.matchSt (fun value => Result.ok (op value)) (fun e => Result.err e)

/-- State-passing `mapOr`. -/
def Result.mapOrSt {T E U : Type} (r : Result T E) (defaultValue : U) (f : T → U) :
    U × Result T E :=
  r.matchSt (fun value => f value) (fun _ => defaultValue)

/-- State-passing `mapOrElse`. -/
def Result.mapOrElseSt {T E U : Type} (r : Result T E) (defaultValue : E → U)
    (f : T → U) : U × Result T E :=
  r.matchSt (fun value => f value) (fun error => defaultValue error)

/-- State-passing `mapErr`. -/
def Result.mapErrSt {T E F : Type} (r : Result T E) (op : E → F) :
    Result T F × Result T E :=
  r.matchSt (fun v => Result.ok v) (fun error => Result.err (op error))

/-- State-passing `inspect`. -/
def Result.inspectSt {T E : Type} (r : Result T E) (f : T → Unit) :
    Result T E × Result T E :=
  match r.innerResult with
  | .ok value => let _ := f value; (r, r)
  | .err _ => (r, r)

/-- State-passing `inspectErr`. -/
def Result.inspectErrSt {T E : Type} (r : Result T E) (f : E → Unit) :
    Result T E × Result T E :=
  match r.innerResult with
  | .ok _ => (r, r)
  | .err value => let _ := f value; (r, r)

/-- State-passing `and`. -/
def Result.andSt {T E U : Type} (r : Result T E) (res : Result U E) :
    Result U E × Result T E :=
  r.matchSt (fun _ => res) (fun e => Result.err e)

/-- State-passing `andThen`. -/
def Result.andThenSt {T E U : Type} (r : Result T E) (op : T → Result U E) :
    Result U E × Result T E :=
  r.matchSt (fun value => op value) (fun e => Result.err e)

/-- State-passing `or`. -/
def Result.orSt {T E F : Type} (r : Result T E) (res : Result T F) :
    Result T F × Result T E :=
  r.matchSt (fun v => Result.ok v) (fun _ => res)

/-- State-passing `orElse`. -/
def Result.orElseSt {T E F : Type} (r : Result T E) (op : E → Result T F) :
    Result T F × Result T E :=
  r.matchSt (fun v => Result.ok v) (fun error => op error)

/-- State-passing `unwrap` (the receiver component is its state whether the
call returns or throws). -/
def Result.unwrapSt {T E : Type} (r : Result T E) : Except (Panic E) T × Result T E :=
  r.matchSt (fun value => .ok value)
    (fun error => .error ⟨"called `Result.unwrap()` on an `Err`", error⟩)

/-- State-passing `unwrapOr`. -/
def Result.unwrapOrSt {T E : Type} (r : Result T E) (defaultValue : T) :
    T × Result T E :=
  r.matchSt (fun value => value) (fun _ => defaultValue)

/-- State-passing `unwrapOrElse`. -/
def Result.unwrapOrElseSt {T E : Type} (r : Result T E) (defaultValue : Unit → T) :
    T × Result T E :=
  r.matchSt (fun value => value) (fun _ => defaultValue ())

/-- State-passing `orThrow`. -/
def Result.orThrowSt {T E : Type} (r : Result T E) : Except E T × Result T E :=
  r.matchSt (fun value => .ok value) (fun error => .error error)

/-- State-passing `branch`. -/
def Result.branchSt {T E : Type} (r : Result T E) :
    ControlFlow (Result Empty E) T × Result T E :=
  r.matchSt (fun value => .continueValue value)
    (fun e => .breakValue (Result.err e))

/-- State-passing `awaited`. -/
def Result.awaitedSt {R T E : Type} (r : Result (Payload R T) (Payload R E)) :
    Except R (Result (Payload R T) (Payload R E)) × Result (Payload R T) (Payload R E) :=
  match r.innerResult with
  | .ok value =>
    match value with
    | .promise (.ok a) => (.ok (Result.ok (.plain a)), r)
    | .promise (.error reason) => (.error reason, r)
    | .thenable o => (.ok (Result.ok (.thenable o)), r)
    | .plain a => (.ok (Result.ok (.plain a)), r)
  | .err value =>
    match value with
    | .promise (.ok e) => (.ok (Result.err (.plain e)), r)
    | .promise (.error reason) => (.error reason, r)
    | .thenable o => (.ok (Result.err (.thenable o)), r)
    | .plain e => (.ok (Result.err (.plain e)), r)

/-!
Claim theorems.
-/

/-- C1: for every `Result` and handlers `f`, `g`, `match` applies exactly the
handler of the active variant — `f` on the success payload of `Ok`, `g` on the
error payload of `Err` — and returns that handler's result; the result never
depends on the handler for the inactive variant, which is therefore never
invoked. -/
theorem match_invokes_exactly_one_handler {T E A : Type} (v : T) (e : E)
    (f f2 : T → A) (g g2 : E → A) :
    (Result.ok v : Result T E).match' f g = f v ∧
    (Result.err e : Result T E).match' f g = g e ∧
    (Result.ok v : Result T E).match' f g = (Result.ok v : Result T E).match' f g2 ∧
    (Result.err e : Result T E).match' f g = (Result.err e : Result T E).match' f2 g :=
  ⟨rfl, rfl, rfl, rfl⟩

/-- C2: the combinator laws: `ok(v).map(f) = ok(f(v))`, `err(e).map(f) =
err(e)` unchanged, `ok(v).andThen(k) = k(v)`, `err(e).andThen(k) = err(e)`,
`ok(v).and(other) = other`, `err(e).and(other) = err(e)`. -/
theorem combinator_laws {T E U : Type} (v : T) (e : E) (f : T → U)
    (k : T → Result U E) (other : Result U E) :
    (Result.ok v : Result T E).map f = Result.ok (f v) ∧
    (Result.err e : Result T E).map f = Result.err e ∧
    (Result.ok v : Result T E).andThen k = k v ∧
    (Result.err e : Result T E).andThen k = Result.err e ∧
    (Result.ok v : Result T E).and other = other ∧
    (Result.err e : Result T E).and other = Result.err e :=
  ⟨rfl, rfl, rfl, rfl, rfl, rfl⟩

/-- C3: `unwrap` on `ok(v)` returns `v`; on `err(e)` it throws a `Panic`
(the distinguished fault type `Panic E`, not a bare `E`) whose `cause` field
carries `e`. -/
theorem unwrap_ok_value_err_panic {T E : Type} (v : T) (e : E) :
    (Result.ok v : Result T E).unwrap = Except.ok v ∧
    (Result.err e : Result T E).unwrap =
      Except.error (Panic.mk "called `Result.unwrap()` on an `Err`" e) ∧
    (Panic.mk "called `Result.unwrap()` on an `Err`" e).cause = e :=
  ⟨rfl, rfl, rfl⟩

/-- C4: `branch` on `ok(v)` returns the `isBreak = false` arm carrying `v`;
on `err(e)` it returns the `isBreak = true` arm carrying the receiver recast
as `Result<never, E>`, i.e. a `Result` wrapping `e`. Its codomain is the plain
`ControlFlow` type (no `Except`), so it always returns normally and performs
no exception or non-local control transfer itself. -/
theorem branch_controlflow_shape {T E : Type} (v : T) (e : E) :
    (Result.ok v : Result T E).branch = ControlFlow.continueValue v ∧
    ((Result.ok v : Result T E).branch).isBreak = false ∧
    (Result.err e : Result T E).branch =
      ControlFlow.breakValue (Result.err e : Result Empty E) ∧
    ((Result.err e : Result T E).branch).isBreak = true :=
  ⟨rfl, rfl, rfl, rfl⟩

/-- C5: `awaited` yields a `Result` of the same variant as the receiver in
every case: a `Promise` payload is resolved to its fulfillment value, any
non-`Promise` payload passes through unchanged, and the rejection of an inner
`Promise` is not converted into an `Err` — it propagates as the rejection of
`awaited`'s own promise (`Except.error`). The eight conjuncts exhaust all
payload shapes of both variants. -/
theorem awaited_same_variant_rejection_propagates {R T E : Type} (a : T) (e : E)
    (ra rb : R) (o : Except R T) (p : Except R E) :
    (Result.ok (Payload.promise (Except.ok a)) :
        Result (Payload R T) (Payload R E)).awaited
      = Except.ok (Result.ok (Payload.plain a)) ∧
    (Result.ok (Payload.promise (Except.error ra)) :
        Result (Payload R T) (Payload R E)).awaited = Except.error ra ∧
    (Result.ok (Payload.thenable o) :
        Result (Payload R T) (Payload R E)).awaited
      = Except.ok (Result.ok (Payload.thenable o)) ∧
    (Result.ok (Payload.plain a) :
        Result (Payload R T) (Payload R E)).awaited
      = Except.ok (Result.ok (Payload.plain a)) ∧
    (Result.err (Payload.promise (Except.ok e)) :
        Result (Payload R T) (Payload R E)).awaited
      = Except.ok (Result.err (Payload.plain e)) ∧
    (Result.err (Payload.promise (Except.error rb)) :
        Result (Payload R T) (Payload R E)).awaited = Except.error rb ∧
    (Result.err (Payload.thenable p) :
        Result (Payload R T) (Payload R E)).awaited
      = Except.ok (Result.err (Payload.thenable p)) ∧
    (Result.err (Payload.plain e) :
        Result (Payload R T) (Payload R E)).awaited
      = Except.ok (Result.err (Payload.plain e)) :=
  ⟨rfl, rfl, rfl, rfl, rfl, rfl, rfl, rfl⟩

/-- C6: the `ok()`/`err()` projections: `ok(v).ok() = v`, `ok(v).err() = null`,
`err(e).err() = e`, `err(e).ok() = null`; in sentinel mode `err(e).ok(true)`
and `ok(v).err(true)` return the `Result.none` sentinel, which differs from
`null` and from every injected payload value. -/
theorem projections_and_none_sentinel {T E : Type} (v : T) (e : E) :
    (Result.ok v : Result T E).okProj false = Projection.val v ∧
    (Result.ok v : Result T E).errProj false = Projection.nullv ∧
    (Result.err e : Result T E).errProj false = Projection.val e ∧
    (Result.err e : Result T E).okProj false = Projection.nullv ∧
    (Result.err e : Result T E).okProj true = Projection.noneSymbol ∧
    (Result.ok v : Result T E).errProj true = Projection.noneSymbol ∧
    (Projection.noneSymbol : Projection T) ≠ Projection.nullv ∧
    (∀ a : T, (Projection.noneSymbol : Projection T) ≠ Projection.val a) ∧
    (Projection.noneSymbol : Projection E) ≠ Projection.nullv ∧
    (∀ b : E, (Projection.noneSymbol : Projection E) ≠ Projection.val b) :=
  ⟨rfl, rfl, rfl, rfl, rfl, rfl,
    fun h => Projection.noConfusion h,
    fun _ h => Projection.noConfusion h,
    fun h => Projection.noConfusion h,
    fun _ h => Projection.noConfusion h⟩

/-- C7: `orThrow` on `ok(v)` returns `v`; on `err(e)` it throws the payload
`e` itself — the fault type is `E`, the raw payload type, with no `Panic` or
other envelope. -/
theorem orThrow_rethrows_raw_payload {T E : Type} (v : T) (e : E) :
    (Result.ok v : Result T E).orThrow = Except.ok v ∧
    (Result.err e : Result T E).orThrow = Except.error e :=
  ⟨rfl, rfl⟩

/-- C8: no operation of the `Result` API mutates the receiver: in the
state-passing embedding of every method (queries, projections, transforms,
extractions, `match`, `branch`, `awaited`) the receiver coming out equals the
receiver going in, the receiver-returning hooks `inspect`/`inspectErr` return
the receiver itself, and a constructed `Result` holds exactly its
construction-time tag and payload. -/
theorem result_api_never_mutates_receiver {T E U F R A : Type}
    (r : Result T E) (ra : Result (Payload R T) (Payload R E))
    (hOk : T → A) (hErr : E → A) (p : T → Bool) (q : E → Bool)
    (b b2 : Bool) (f : T → U) (d : U) (dE : E → U) (g : E → F)
    (hT : T → Unit) (hE : E → Unit) (resU : Result U E) (kU : T → Result U E)
    (resF : Result T F) (kF : E → Result T F) (dv : T) (dvf : Unit → T)
    (v : T) (e : E) :
    (r.matchSt hOk hErr).2 = r ∧
    (r.isOkSt).2 = r ∧
    (r.isOkAndSt p).2 = r ∧
    (r.isErrSt).2 = r ∧
    (r.isErrAndSt q).2 = r ∧
    (r.okProjSt b).2 = r ∧
    (r.errProjSt b2).2 = r ∧
    (r.mapSt f).2 = r ∧
    (r.mapOrSt d f).2 = r ∧
    (r.mapOrElseSt dE f).2 = r ∧
    (r.mapErrSt g).2 = r ∧
    (r.inspectSt hT).2 = r ∧
    (r.inspectErrSt hE).2 = r ∧
    (r.andSt resU).2 = r ∧
    (r.andThenSt kU).2 = r ∧
    (r.orSt resF).2 = r ∧
    (r.orElseSt kF).2 = r ∧
    (r.unwrapSt).2 = r ∧
    (r.unwrapOrSt dv).2 = r ∧
    (r.unwrapOrElseSt dvf).2 = r ∧
    (r.orThrowSt).2 = r ∧
    (r.branchSt).2 = r ∧
    (ra.awaitedSt).2 = ra ∧
    r.inspect hT = r ∧
    r.inspectErr hE = r ∧
    (Result.ok v : Result T E).innerResult = ResultInner.ok v ∧
    (Result.err e : Result T E).innerResult = ResultInner.err e := by
  have hawait : (ra.awaitedSt).2 = ra := by
    obtain ⟨ira⟩ := ra
    rcases ira with pl | pl <;>
      rcases pl with o | o | a2 <;>
      first
        | rfl
        | (rcases o with x | x <;> rfl)
  obtain ⟨ir⟩ := r
  cases ir <;>
    exact ⟨rfl, rfl, rfl, rfl, rfl, rfl, rfl, rfl, rfl, rfl, rfl, rfl, rfl,
      rfl, rfl, rfl, rfl, rfl, rfl, rfl, rfl, rfl, hawait, rfl, rfl, rfl, rfl⟩

/-- C9: the response-mapping step of `CfTurnstile.validate` sends every body
whose `success` field is `true` to `Result.ok` of that body, and every body
whose `success` field is `false` to `Result.err` of a `TurnstileError`
constructed from — and carrying — the body's `"error-codes"` list. -/
theorem validate_maps_body_by_success_flag (s : TurnstileAPISuccessResponse)
    (f : TurnstileAPIErrorResponse) :
    CfTurnstile.validateBody (TunstileAPIResponse.success s)
      = Result.ok (TunstileAPIResponse.success s) ∧
    CfTurnstile.validateBody (TunstileAPIResponse.failure f)
      = Result.err (TurnstileError.ofCodes f.errorCodes) ∧
    (TurnstileError.ofCodes f.errorCodes).codes = f.errorCodes :=
  ⟨rfl, rfl, rfl⟩

/-- C10: `awaited` treats a payload as pending only when it is an instance of
the host `Promise` class: a thenable that is not a `Promise` instance — and
any other non-`Promise` value — passes through unresolved and unchanged in a
`Result` of the same variant (the thenable's would-be settlement is never
consulted). -/
theorem awaited_awaits_only_promise_instances {R T E : Type} (o : Except R T)
    (p : Except R E) (a : T) (e : E) :
    (Result.ok (Payload.thenable o) :
        Result (Payload R T) (Payload R E)).awaited
      = Except.ok (Result.ok (Payload.thenable o)) ∧
    (Result.err (Payload.thenable p) :
        Result (Payload R T) (Payload R E)).awaited
      = Except.ok (Result.err (Payload.thenable p)) ∧
    (Result.ok (Payload.plain a) :
        Result (Payload R T) (Payload R E)).awaited
      = Except.ok (Result.ok (Payload.plain a)) ∧
    (Result.err (Payload.plain e) :
        Result (Payload R T) (Payload R E)).awaited
      = Except.ok (Result.err (Payload.plain e)) :=
  ⟨rfl, rfl, rfl, rfl⟩
